import Mathlib

/-
Verification development for the surfer-ai browser-automation extension.

The embedding models:
  * the content-script Executor (both handleScroll variants, handleTypeAction)
    from the content script source;
  * the background Dispatcher (handleExecuteAction, executeBrowserAction,
    getPageState, handleGetPageState and the per-action post-processing
    branches) from src/background/background.ts;
  * the executeAction validation helper from src/content/actions.ts.

JavaScript dynamic values are modelled explicitly: a string that may be
undefined is an `Option String`, JS truthiness of such a value is `strFalsy`,
and `x || d` on strings is `orElseStr`.  Asynchronous effects (chrome API
calls, message sends, timers) are modelled by environments that record the
outcome of each call and by explicit event traces.
-/

namespace Surfer

/-- Scroll direction, the `direction` field of a scroll action. -/
inductive Direction
  | up
  | down
deriving DecidableEq

/-- The string form of a direction, as interpolated into messages. -/
def dirStr : Direction → String
  | Direction.up => "up"
  | Direction.down => "down"

/-- JS falsiness of a string-or-undefined value: `undefined` and `""` are falsy. -/
def strFalsy : Option String → Bool
  | none => true
  | some s => s.isEmpty

/-- JS `x || d` for a string-or-undefined value `x` and a string default `d`. -/
def orElseStr (x : Option String) (d : String) : String :=
  match x with
  | none => d
  | some s => if s.isEmpty then d else s

/-- `String.startsWith`, computed over the underlying character lists. -/
def strStartsWith (s p : String) : Bool :=
  List.isPrefixOf p.data s.data

/-- background.ts `isAccessibleUrl`: a URL is accessible unless it uses the
chrome:// or chrome-extension:// scheme. -/
def isAccessibleUrl (url : String) : Bool :=
  !(strStartsWith url "chrome://") && !(strStartsWith url "chrome-extension://")

/-! ## Executor: scroll handling (second content-script variant) -/

/-- The page geometry the content script reads before scrolling.
`documentHeight` stands for the `Math.max` of the six body/documentElement
size readings taken at the start of `handleScroll`. -/
structure Page where
  scrollY : Int
  documentHeight : Int
  viewportHeight : Int
deriving DecidableEq

/-- The DOM side effect of a scroll attempt: either no scroll call is made
(the fast-path boundary short-circuit) or `window.scrollTo` is invoked
toward a target position. -/
inductive ScrollEffect
  | noEffect
  | smoothScrollTo (target : Int)
deriving DecidableEq

/-- The `details` record of the second-variant scroll result. -/
structure ScrollDetails where
  scrolled : Bool
  startPosition : Int
  endPosition : Int
  requestedChange : Int
  actualChange : Int
  isAtBottom : Bool
  isAtTop : Bool
  maxScroll : Int
  viewportHeight : Int
  documentHeight : Int
deriving DecidableEq

/-- A scroll result as sent back over the message channel. -/
structure ScrollResult where
  success : Bool
  details : Option ScrollDetails := none
  error : Option String := none
deriving DecidableEq

/-- The second content-script variant of `handleScroll`.  `endAfter` is the
value `window.scrollY` reads when the 500 ms settle timer fires (only the
non-fast-path branch samples it).  Returns the resolved result together
with the DOM effect performed. -/
def handleScroll (direction : Direction) (pixels : Int) (page : Page)
    (endAfter : Int) : ScrollResult × ScrollEffect :=
  let startPosition := page.scrollY
  let documentHeight := page.documentHeight
  let viewportHeight := page.viewportHeight
  let maxScroll := documentHeight - viewportHeight
  let scrollAmount := if direction = Direction.down then pixels else -pixels
  let targetPosition := max 0 (min (startPosition + scrollAmount) maxScroll)
  if (direction = Direction.up ∧ startPosition ≤ 0) ∨
     (direction = Direction.down ∧ startPosition ≥ maxScroll) then
    ({ success := true
     , details := some
        { scrolled := false
        , startPosition := startPosition
        , endPosition := startPosition
        , requestedChange := scrollAmount
        , actualChange := 0
        , isAtBottom := decide (startPosition ≥ maxScroll)
        , isAtTop := decide (startPosition ≤ 0)
        , maxScroll := maxScroll
        , viewportHeight := viewportHeight
        , documentHeight := documentHeight }
     , error := none }, ScrollEffect.noEffect)
  else
    let endPosition := endAfter
    let actualChange := endPosition - startPosition
    ({ success := true
     , details := some
        { scrolled := decide (actualChange ≠ 0)
        , startPosition := startPosition
        , endPosition := endPosition
        , requestedChange := scrollAmount
        , actualChange := actualChange
        , isAtBottom := decide (endPosition ≥ maxScroll - 1)
        , isAtTop := decide (endPosition ≤ 0)
        , maxScroll := maxScroll
        , viewportHeight := viewportHeight
        , documentHeight := documentHeight }
     , error := none }, ScrollEffect.smoothScrollTo targetPosition)

/-! ## Executor: scroll handling (first content-script variant) -/

/-- The `details` record of the first-variant scroll result (it carries no
viewportHeight/documentHeight fields). -/
structure ScrollDetailsV1 where
  scrolled : Bool
  startPosition : Int
  endPosition : Int
  requestedChange : Int
  actualChange : Int
  isAtBottom : Bool
  isAtTop : Bool
  maxScroll : Int
deriving DecidableEq

/-- A first-variant scroll result. -/
structure ScrollResultV1 where
  success : Bool
  details : ScrollDetailsV1
deriving DecidableEq

/-- The measurement/resolve step of the first content-script variant of
`handleScroll`: when its 1000 ms settle timer fires it reads `endPosition`
and `maxScroll` and resolves with `success: Math.abs(actualChange) > 0`. -/
def handleScrollV1Resolve (startPosition scrollAmount endPosition
    maxScroll : Int) : ScrollResultV1 :=
  let actualChange := endPosition - startPosition
  { success := decide (0 < actualChange.natAbs)
  , details :=
      { scrolled := decide (0 < actualChange.natAbs)
      , startPosition := startPosition
      , endPosition := endPosition
      , requestedChange := scrollAmount
      , actualChange := actualChange
      , isAtBottom := decide ((maxScroll - endPosition).natAbs < 10)
      , isAtTop := decide (endPosition ≤ 0)
      , maxScroll := maxScroll } }

/-! ## Dispatcher: scroll response classification -/

/-- The dispatcher's user-facing outcome for a scroll action. -/
structure ScrollOutcome where
  success : Bool
  message : Option String := none
  error : Option String := none
  details : Option ScrollDetails := none
deriving DecidableEq

/-- The inner classification of a successful scroll response with details,
from the scroll branch of `handleExecuteAction` in background.ts. -/
def classifyScrollDetails (direction : Direction) (d : ScrollDetails) :
    ScrollOutcome :=
  if direction = Direction.up ∧ d.isAtTop = true then
    { success := true, details := some d
    , message := some "Already at the top of the page" }
  else if direction = Direction.down ∧ d.isAtBottom = true then
    { success := true, details := some d
    , message := some "Already at the bottom of the page" }
  else if d.scrolled = false ∨ d.actualChange = 0 then
    { success := true, details := some d
    , message := some "No scroll needed or possible" }
  else
    { success := true, details := some d
    , message := some ("Scrolled " ++ dirStr direction ++ " by "
        ++ toString d.actualChange.natAbs ++ " pixels") }

/-- The fallback path of the scroll branch: `response.error` when truthy,
otherwise the missing-details format error. -/
def scrollErrorFallback (e : Option String) : ScrollOutcome :=
  if strFalsy e then
    { success := false
    , error := some "Invalid scroll response format: missing details" }
  else
    { success := false, error := e }

/-- The scroll branch of `handleExecuteAction`: classify when the response
is successful and carries details, otherwise fall back to the error path. -/
def classifyScrollResponse (direction : Direction) (resp : ScrollResult) :
    ScrollOutcome :=
  match resp.details with
  | some d =>
      if resp.success then classifyScrollDetails direction d
      else scrollErrorFallback resp.error
  | none => scrollErrorFallback resp.error

/-- Modelled from the spec: the classification precedence exactly as the
spec states it — (i) up and isAtTop, (ii) down and isAtBottom,
(iii) actualChange == 0, (iv) scrolled by |actualChange|. -/
def specScrollClassify (direction : Direction) (d : ScrollDetails) :
    ScrollOutcome :=
  if direction = Direction.up ∧ d.isAtTop = true then
    { success := true, details := some d
    , message := some "Already at the top of the page" }
  else if direction = Direction.down ∧ d.isAtBottom = true then
    { success := true, details := some d
    , message := some "Already at the bottom of the page" }
  else if d.actualChange = 0 then
    { success := true, details := some d
    , message := some "No scroll needed or possible" }
  else
    { success := true, details := some d
    , message := some ("Scrolled " ++ dirStr direction ++ " by "
        ++ toString d.actualChange.natAbs ++ " pixels") }

/-! ## Dispatcher: pre-forward control flow -/

/-- The fields of a chrome tab the dispatcher reads. -/
structure TabInfo where
  url : Option String := none
deriving DecidableEq

/-- The success/error shape of a dispatch result (post-forward processing
results are supplied abstractly by the environment in the flow model). -/
structure DispatchResult where
  success : Bool
  error : Option String := none
deriving DecidableEq

/-- Outcomes of the chrome API calls a single dispatch performs. -/
structure FlowEnv where
  tab : Except String TabInfo
  pingOk : Bool
  injectOk : Bool
  injectErrorMsg : String
  forwardResult : DispatchResult

/-- Observable events of one dispatch, in order: resolving the tab,
sending PING to the content script, injecting content.js, the fixed
settle timer (ms), and forwarding the EXECUTE_ACTION message. -/
inductive Event
  | getTab
  | ping
  | inject
  | settle (ms : Nat)
  | forward
deriving DecidableEq

/-- The pre-forward control flow of `handleExecuteAction` in background.ts
(the handler wired to EXECUTE_ACTION messages).  `tabId = none` models an
absent tabId and `some 0` a zero tabId; both are falsy in JS.  Note the
function performs no `isAccessibleUrl` check: the resolved tab's URL does
not influence the flow.  The post-forward processing result is supplied
by `env.forwardResult`. -/
def handleExecuteActionFlow (tabId : Option Nat) (env : FlowEnv) :
    List Event × DispatchResult :=
  if tabId = none ∨ tabId = some 0 then
    ([], { success := false, error := some "No tab ID provided" })
  else
    match env.tab with
    | Except.error msg =>
        ([Event.getTab], { success := false, error := some msg })
    | Except.ok _tab =>
        if env.pingOk then
          ([Event.getTab, Event.ping, Event.forward], env.forwardResult)
        else if env.injectOk then
          ([Event.getTab, Event.ping, Event.inject, Event.settle 100,
            Event.forward], env.forwardResult)
        else
          ([Event.getTab, Event.ping, Event.inject],
           { success := false, error := some env.injectErrorMsg })

/-- The control flow of `executeBrowserAction` in background.ts.  It checks
`isAccessibleUrl` before any message is sent; a failed injection resolves
with a fixed message and there is no settle timer after injection. -/
def executeBrowserActionFlow (env : FlowEnv) : List Event × DispatchResult :=
  match env.tab with
  | Except.error msg =>
      ([Event.getTab], { success := false, error := some msg })
  | Except.ok tab =>
      if strFalsy tab.url || !(isAccessibleUrl (tab.url.getD "")) then
        ([Event.getTab],
         { success := false
         , error := some "Cannot execute actions on this type of page. Please try on a regular webpage." })
      else if env.pingOk then
        ([Event.getTab, Event.ping, Event.forward], env.forwardResult)
      else if env.injectOk then
        ([Event.getTab, Event.ping, Event.inject, Event.forward],
         env.forwardResult)
      else
        ([Event.getTab, Event.ping, Event.inject],
         { success := false, error := some "Failed to inject content script" })

/-! ## PageStateProvider -/

/-- Outcomes of the chrome API calls a page-state capture performs.
`now` is `Date.now()` at the rate-limit check, `now2` is `Date.now()`
immediately after a successful screenshot. -/
structure CaptureEnv where
  tab : Except String TabInfo
  now : Int := 0
  now2 : Int := 0
  screenshotResult : Except String String
  htmlResult : Except String String

/-- The page-state object returned to callers. -/
structure PageStateResult where
  success : Bool
  screenshot : Option String := none
  html : Option String := none
  error : Option String := none
deriving DecidableEq

/-- Minimum 1 second between screenshots. -/
def MIN_SCREENSHOT_INTERVAL : Int := 1000

/-- background.ts `getPageState`: the rate-limited capture helper.  Takes
and returns the process-wide `lastScreenshotTime`.  Within the minimum
interval it skips the screenshot (null) but still serializes the HTML. -/
def getPageState (lastScreenshotTime : Int) (env : CaptureEnv) :
    PageStateResult × Int :=
  match env.tab with
  | Except.error e =>
      ({ success := false, error := some e }, lastScreenshotTime)
  | Except.ok tab =>
      if strFalsy tab.url || !(isAccessibleUrl (tab.url.getD "")) then
        ({ success := false
         , error := some "Cannot access this type of page. Please try on a regular webpage." },
         lastScreenshotTime)
      else if env.now - lastScreenshotTime < MIN_SCREENSHOT_INTERVAL then
        match env.htmlResult with
        | Except.ok h =>
            ({ success := true, html := some h, screenshot := none },
             lastScreenshotTime)
        | Except.error e =>
            ({ success := false, error := some e }, lastScreenshotTime)
      else
        match env.screenshotResult with
        | Except.error e =>
            ({ success := false, error := some e }, lastScreenshotTime)
        | Except.ok s =>
            match env.htmlResult with
            | Except.ok h =>
                ({ success := true, screenshot := some s, html := some h },
                 env.now2)
            | Except.error e =>
                ({ success := false, error := some e }, env.now2)

/-- background.ts `handleGetPageState`: the capture handler wired to
GET_PAGE_STATE messages and used for post-action enrichment.  It performs
no rate limiting and no accessibility check, and its body is wrapped in
try/catch returning the error as a value — so it always fulfills rather
than rejecting. -/
def handleGetPageState (env : CaptureEnv) : PageStateResult :=
  match env.tab with
  | Except.error e => { success := false, error := some e }
  | Except.ok _tab =>
      match env.screenshotResult with
      | Except.error e => { success := false, error := some e }
      | Except.ok s =>
          match env.htmlResult with
          | Except.error e => { success := false, error := some e }
          | Except.ok h =>
              { success := true, screenshot := some s, html := some h }

/-! ## Dispatcher: click/type/wait enrichment -/

/-- The details object of a content-script click/type response. -/
structure RespDetails where
  error : Option String := none
  element : Option String := none
  selector : Option String := none
  text : Option String := none
  clicked : Option Bool := none
deriving DecidableEq

/-- A content-script response to a click/type/wait action. -/
structure ActionResponse where
  success : Bool
  details : Option RespDetails := none
deriving DecidableEq

/-- The enriched details object, the spread of the response details with
the captured screenshot and html. -/
structure EnrichedDetails where
  base : RespDetails
  screenshot : Option String
  html : Option String
deriving DecidableEq

/-- The enriched dispatch result, the spread of the page state with the
enriched details. -/
structure EnrichedResult where
  success : Bool
  error : Option String := none
  screenshot : Option String := none
  html : Option String := none
  details : Option EnrichedDetails := none
deriving DecidableEq

/-- The click branch of `handleExecuteAction`.  `capture` is the outcome of
the `handleGetPageState` promise: `Except.error` is the rejected case
(which would produce the composite message in the `.catch` handler). -/
def processClickResponse (resp : ActionResponse)
    (capture : Except String PageStateResult) : EnrichedResult :=
  if resp.success then
    match capture with
    | Except.ok ps =>
        { success := ps.success, error := ps.error
        , screenshot := ps.screenshot, html := ps.html
        , details := some
            { base := resp.details.getD {}
            , screenshot := ps.screenshot, html := ps.html } }
    | Except.error msg =>
        { success := false
        , error := some ("Click succeeded but failed to get page state: " ++ msg) }
  else
    { success := false
    , error := some (orElseStr ((resp.details.getD {}).error)
        "Click action failed") }

/-- The type branch of `handleExecuteAction` (same shape as the click
branch with its own messages). -/
def processTypeResponse (resp : ActionResponse)
    (capture : Except String PageStateResult) : EnrichedResult :=
  if resp.success then
    match capture with
    | Except.ok ps =>
        { success := ps.success, error := ps.error
        , screenshot := ps.screenshot, html := ps.html
        , details := some
            { base := resp.details.getD {}
            , screenshot := ps.screenshot, html := ps.html } }
    | Except.error msg =>
        { success := false
        , error := some ("Type action succeeded but failed to get page state: " ++ msg) }
  else
    { success := false
    , error := some (orElseStr ((resp.details.getD {}).error)
        "Type action failed") }

/-- The wait branch of `handleExecuteAction` (same shape again). -/
def processWaitResponse (resp : ActionResponse)
    (capture : Except String PageStateResult) : EnrichedResult :=
  if resp.success then
    match capture with
    | Except.ok ps =>
        { success := ps.success, error := ps.error
        , screenshot := ps.screenshot, html := ps.html
        , details := some
            { base := resp.details.getD {}
            , screenshot := ps.screenshot, html := ps.html } }
    | Except.error msg =>
        { success := false
        , error := some ("Wait action succeeded but failed to get page state: " ++ msg) }
  else
    { success := false
    , error := some (orElseStr ((resp.details.getD {}).error)
        "Wait action failed") }

/-- The click branch as it actually runs: since `handleGetPageState`
always fulfills (it catches internally), the capture argument is always
`Except.ok`. -/
def dispatchClickResult (resp : ActionResponse) (env : CaptureEnv) :
    EnrichedResult :=
  processClickResponse resp (Except.ok (handleGetPageState env))

/-- A value passed to resolve by the EXECUTE_ACTION callback: either the
raw content-script response forwarded unchanged by the default
resolve(response), or a result built by one of the branches. -/
inductive Resolved
  | raw (resp : ActionResponse)
  | processed (r : EnrichedResult)
deriving DecidableEq

/-- The resolve calls the type branch of `handleExecuteAction` makes, in
settlement order.  Unlike the scroll, click and wait branches, the type
branch has no trailing return, so control falls through to the default
resolve(response).  On a successful response the enrichment resolve is
asynchronous (inside the handleGetPageState then-continuation), so the
synchronous default resolve settles first; on a failed response the
branch's own resolve is synchronous and runs before the fall-through. -/
def typeBranchResolves (resp : ActionResponse) (env : CaptureEnv) :
    List Resolved :=
  if resp.success then
    [Resolved.raw resp,
     Resolved.processed (processTypeResponse resp
       (Except.ok (handleGetPageState env)))]
  else
    [Resolved.processed (processTypeResponse resp
       (Except.ok (handleGetPageState env))),
     Resolved.raw resp]

/-- The result a type dispatch actually returns: a promise settles with
its first resolution, so later resolve calls are ignored. -/
def dispatchTypeResult (resp : ActionResponse) (env : CaptureEnv) :
    Resolved :=
  (typeBranchResolves resp env).headD (Resolved.raw resp)

/-- The wait branch as it actually runs (capture always fulfills). -/
def dispatchWaitResult (resp : ActionResponse) (env : CaptureEnv) :
    EnrichedResult :=
  processWaitResponse resp (Except.ok (handleGetPageState env))

/-! ## Executor: type action -/

/-- The data of a type action as received by `handleTypeAction`:
the text to type and the optional `element_data.selector`. -/
structure TypeData where
  text : String
  selector : Option String := none
deriving DecidableEq

/-- A DOM element as `handleTypeAction` observes it: absent, a text-input
element (HTMLInputElement / HTMLTextAreaElement) with its lowercase tag
name, or some other element that cannot accept text. -/
inductive DomElem
  | missing
  | inputElem (tag : String)
  | otherElem (tag : String)
deriving DecidableEq

/-- The DOM as `handleTypeAction` queries it: what `querySelector` on the
action's selector yields, and the currently focused element. -/
structure TypeDom where
  bySelector : DomElem
  active : DomElem
deriving DecidableEq

/-- The outcome of `handleTypeAction`: the response sent back, and the
value assigned to the target element's `value` property, if any. -/
structure TypeOutcome where
  response : ActionResponse
  valueWritten : Option String
deriving DecidableEq

/-- The success result of `handleTypeAction` for a resolved target. -/
def typeSuccess (data : TypeData) (tag : String) : TypeOutcome :=
  { response :=
      { success := true
      , details := some
          { element := some tag
          , selector := data.selector
          , text := some data.text } }
  , valueWritten := some data.text }

/-- The cannot-accept-text failure of `handleTypeAction`. -/
def typeCannotAccept : TypeOutcome :=
  { response :=
      { success := false
      , details := some
          { error := some "Target element cannot accept text input" } }
  , valueWritten := none }

/-- The content script's `handleTypeAction`: resolve the target via the
selector when `element_data.selector` is present (not-found is an error),
otherwise fall back to the focused element; reject non-text-input targets;
otherwise set `value := data.text` (an empty string clears the field),
dispatch input/change events and report success with the typed text. -/
def handleTypeAction (data : TypeData) (dom : TypeDom) : TypeOutcome :=
  match data.selector with
  | some sel =>
      match dom.bySelector with
      | DomElem.missing =>
          { response :=
              { success := false
              , details := some
                  { error := some ("Element not found with selector: " ++ sel) } }
          , valueWritten := none }
      | DomElem.inputElem tag => typeSuccess data tag
      | DomElem.otherElem _ => typeCannotAccept
  | none =>
      match dom.active with
      | DomElem.missing => typeCannotAccept
      | DomElem.inputElem tag => typeSuccess data tag
      | DomElem.otherElem _ => typeCannotAccept

/-! ## content/actions.ts: executeAction validation -/

/-- JS falsiness of a number-or-undefined value: `undefined` and `0` are
falsy. -/
def intFalsy : Option Int → Bool
  | none => true
  | some n => n = 0

/-- An action as typed in src/content/actions.ts. -/
structure ActionTS where
  action : String
  selector : Option String := none
  text : Option String := none
  direction : Option Direction := none
  pixels : Option Int := none
  key : Option String := none
deriving DecidableEq

/-- The primitive call `executeAction` dispatches to after validation. -/
inductive ExecAction
  | doClick (selector : String)
  | doType (selector text : String)
  | doScroll (amount : Int)
  | doPress (key : String)
deriving DecidableEq

/-- The validation and dispatch skeleton of `executeAction` in
src/content/actions.ts.  Each guard is the JS falsy check from the source
(`!action.selector`, `!action.text`, ...), so an empty string fails the
text guard. -/
def executeAction (a : ActionTS) : Except String ExecAction :=
  if a.action = "click" then
    if strFalsy a.selector then Except.error "Click action requires selector"
    else Except.ok (ExecAction.doClick (a.selector.getD ""))
  else if a.action = "type" then
    if strFalsy a.selector || strFalsy a.text then
      Except.error "Type action requires selector and text"
    else Except.ok (ExecAction.doType (a.selector.getD "") (a.text.getD ""))
  else if a.action = "scroll" then
    if a.direction = none || intFalsy a.pixels then
      Except.error "Scroll action requires direction and pixels"
    else
      Except.ok (ExecAction.doScroll
        (if a.direction = some Direction.up then -(a.pixels.getD 0)
         else a.pixels.getD 0))
  else if a.action = "press_key" then
    if strFalsy a.key then Except.error "Press key action requires key"
    else Except.ok (ExecAction.doPress (a.key.getD ""))
  else
    Except.error ("Unknown action type: " ++ a.action)

/-! ## Concrete inputs used by witnesses and counterexamples -/

/-- A dispatch environment with a healthy content script on a normal page. -/
def envC10 : FlowEnv :=
  { tab := Except.ok { url := some "https://example.com" }, pingOk := true
  , injectOk := true, injectErrorMsg := "x"
  , forwardResult := { success := true, error := none } }

/-- A dispatch environment where the PING fails and injection succeeds. -/
def envC3 : FlowEnv :=
  { tab := Except.ok { url := some "https://example.com" }, pingOk := false
  , injectOk := true, injectErrorMsg := "boom"
  , forwardResult := { success := true, error := none } }

/-- A dispatch environment whose tab is a privileged chrome:// page,
with the content script answering PING. -/
def envC4 : FlowEnv :=
  { tab := Except.ok { url := some "chrome://settings" }, pingOk := true
  , injectOk := true, injectErrorMsg := "x"
  , forwardResult := { success := true, error := none } }

/-- A dispatch environment whose tab is an extension page. -/
def envC4b : FlowEnv :=
  { tab := Except.ok { url := some "chrome-extension://abc/page.html" }
  , pingOk := true, injectOk := true, injectErrorMsg := "x"
  , forwardResult := { success := true, error := none } }

/-- Details of a scroll that moved 100 px with room on both sides. -/
def dC5 : ScrollDetails :=
  { scrolled := true, startPosition := 0, endPosition := 100
  , requestedChange := 100, actualChange := 100, isAtBottom := false
  , isAtTop := false, maxScroll := 1200, viewportHeight := 800
  , documentHeight := 2000 }

/-- A first capture, more than one second after the last screenshot. -/
def capEnvA : CaptureEnv :=
  { tab := Except.ok { url := some "https://site.example" }
  , now := 5000, now2 := 5050
  , screenshotResult := Except.ok "png1", htmlResult := Except.ok "<p>one</p>" }

/-- A second capture, 450 ms after the first one's screenshot. -/
def capEnvB : CaptureEnv :=
  { tab := Except.ok { url := some "https://site.example" }
  , now := 5500, now2 := 5600
  , screenshotResult := Except.ok "png2", htmlResult := Except.ok "<p>two</p>" }

/-- A capture issued 100 ms into a session through the wired handler. -/
def capEnvCex : CaptureEnv :=
  { tab := Except.ok { url := some "https://site.example" }
  , now := 100, now2 := 100
  , screenshotResult := Except.ok "png2", htmlResult := Except.ok "<p>two</p>" }

/-- A successful click response from the content script. -/
def respC7 : ActionResponse :=
  { success := true, details := some { clicked := some true, selector := some "#btn" } }

/-- A capture environment whose screenshot call throws. -/
def capEnvC7 : CaptureEnv :=
  { tab := Except.ok { url := some "https://site.example" }
  , screenshotResult := Except.error "boom", htmlResult := Except.ok "<p/>" }

/-- A type action typing "hello" into a selector-located input. -/
def dataC8 : TypeData := { text := "hello", selector := some "#in" }

/-- A DOM whose selector resolves to an input element. -/
def domC8 : TypeDom :=
  { bySelector := DomElem.inputElem "input", active := DomElem.missing }

/-- A capture environment that succeeds with the post-type page state. -/
def capEnvC8 : CaptureEnv :=
  { tab := Except.ok { url := some "https://site.example" }
  , screenshotResult := Except.ok "png"
  , htmlResult := Except.ok "<input value=hello>" }

/-- A DOM whose selector resolves to a textarea element. -/
def domC9 : TypeDom :=
  { bySelector := DomElem.inputElem "textarea", active := DomElem.missing }

/-! ## Supporting lemmas -/

/-- Every branch of the dispatcher's scroll classification reports success. -/
theorem classifyScrollDetails_success (direction : Direction)
    (d : ScrollDetails) : (classifyScrollDetails direction d).success = true := by
  unfold classifyScrollDetails
  split_ifs <;> rfl

/-- Every details record produced by the second-variant handleScroll
satisfies scrolled = false iff actualChange = 0. -/
theorem handleScroll_scrolled_iff (direction : Direction) (pixels : Int)
    (page : Page) (endAfter : Int) (d : ScrollDetails)
    (hd : (handleScroll direction pixels page endAfter).1.details = some d) :
    d.scrolled = false ↔ d.actualChange = 0 := by
  simp only [handleScroll] at hd
  split at hd <;>
  · simp only [Option.some.injEq] at hd
    subst hd
    simp

/-- A successful handleTypeAction outcome is a typeSuccess for some tag. -/
theorem handleTypeAction_success_shape (data : TypeData) (dom : TypeDom)
    (hok : (handleTypeAction data dom).response.success = true) :
    ∃ tag, handleTypeAction data dom = typeSuccess data tag := by
  cases hsel : data.selector with
  | none =>
      cases hact : dom.active with
      | missing => simp [handleTypeAction, hsel, hact, typeCannotAccept] at hok
      | inputElem tag => exact ⟨tag, by simp [handleTypeAction, hsel, hact]⟩
      | otherElem tag =>
          simp [handleTypeAction, hsel, hact, typeCannotAccept] at hok
  | some sel =>
      cases hbs : dom.bySelector with
      | missing => simp [handleTypeAction, hsel, hbs] at hok
      | inputElem tag => exact ⟨tag, by simp [handleTypeAction, hsel, hbs]⟩
      | otherElem tag =>
          simp [handleTypeAction, hsel, hbs, typeCannotAccept] at hok

/-! ## Claims -/

/-- Claim C1: when the requested direction already sits at its extreme
(up with startPosition <= 0, or down with startPosition >= maxScroll),
the Executor's scroll handler returns immediately with success:true,
scrolled:false and actualChange:0, and performs no scroll effect. -/
theorem scroll_boundary_fast_path (direction : Direction) (pixels : Int)
    (page : Page) (endAfter : Int)
    (h : (direction = Direction.up ∧ page.scrollY ≤ 0) ∨
         (direction = Direction.down ∧
          page.scrollY ≥ page.documentHeight - page.viewportHeight)) :
    (handleScroll direction pixels page endAfter).1.success = true ∧
    ((handleScroll direction pixels page endAfter).1.details.map
      ScrollDetails.scrolled) = some false ∧
    ((handleScroll direction pixels page endAfter).1.details.map
      ScrollDetails.actualChange) = some 0 ∧
    (handleScroll direction pixels page endAfter).2 = ScrollEffect.noEffect := by
  simp only [handleScroll]
  split
  · exact ⟨rfl, rfl, rfl, rfl⟩
  · next hn => exact absurd h hn

/-- Claim C1 witness: scrolling up from position 0 short-circuits. -/
theorem scroll_boundary_fast_path_witness :
    (handleScroll Direction.up 100
      { scrollY := 0, documentHeight := 2000, viewportHeight := 800 } 0).1.success = true ∧
    ((handleScroll Direction.up 100
      { scrollY := 0, documentHeight := 2000, viewportHeight := 800 } 0).1.details.map
      ScrollDetails.scrolled) = some false ∧
    ((handleScroll Direction.up 100
      { scrollY := 0, documentHeight := 2000, viewportHeight := 800 } 0).1.details.map
      ScrollDetails.actualChange) = some 0 ∧
    (handleScroll Direction.up 100
      { scrollY := 0, documentHeight := 2000, viewportHeight := 800 } 0).2 =
      ScrollEffect.noEffect :=
  scroll_boundary_fast_path Direction.up 100
    { scrollY := 0, documentHeight := 2000, viewportHeight := 800 } 0
    (Or.inl ⟨rfl, by decide⟩)

/-- Claim C2 counterexample: in the first content-script variant, a scroll
whose measurement completes with actualChange = 0 resolves with
success:false, refuting the claim that measurement completion always
yields success:true. -/
theorem scrollV1_zero_change_reports_failure :
    (handleScrollV1Resolve 0 100 0 500).success = false ∧
    (handleScrollV1Resolve 0 100 0 500).details.actualChange = 0 :=
  ⟨rfl, rfl⟩

/-- Claim C2 (amended): in the second content-script variant of
handleScroll, success is always true once measurement completes; in the
first variant, success equals |actualChange| > 0, so a zero-motion scroll
reports success:false there. -/
theorem scroll_success_by_variant :
    (∀ (direction : Direction) (pixels : Int) (page : Page) (endAfter : Int),
      (handleScroll direction pixels page endAfter).1.success = true) ∧
    (∀ s a e m : Int,
      (handleScrollV1Resolve s a e m).success = decide (0 < (e - s).natAbs)) := by
  constructor
  · intro direction pixels page endAfter
    simp only [handleScroll]
    split <;> rfl
  · intro s a e m
    rfl

/-- Claim C3: if the initial PING fails, exactly one injection is
attempted, followed by the fixed 100 ms settle wait, after which the
action is forwarded with no second probe; if the injection throws, the
dispatch terminates with success:false and the action is never
forwarded. -/
theorem single_injection_recovery (tabId : Nat) (env : FlowEnv) (t : TabInfo)
    (htid : ¬tabId = 0) (htab : env.tab = Except.ok t)
    (hping : env.pingOk = false) :
    (env.injectOk = true →
      handleExecuteActionFlow (some tabId) env =
        ([Event.getTab, Event.ping, Event.inject, Event.settle 100,
          Event.forward], env.forwardResult)) ∧
    (env.injectOk = false →
      handleExecuteActionFlow (some tabId) env =
        ([Event.getTab, Event.ping, Event.inject],
         { success := false, error := some env.injectErrorMsg })) := by
  constructor <;> intro hinj <;>
    simp [handleExecuteActionFlow, htid, htab, hping, hinj]

/-- Claim C3 witness: a failed PING with a successful injection yields the
probe, one injection, the 100 ms settle, and the forward, in order. -/
theorem single_injection_recovery_witness :
    handleExecuteActionFlow (some 5) envC3 =
      ([Event.getTab, Event.ping, Event.inject, Event.settle 100,
        Event.forward], { success := true, error := none }) :=
  (single_injection_recovery 5 envC3 { url := some "https://example.com" }
    (by decide) rfl rfl).1 rfl

/-- Claim C4 counterexample: a dispatch whose tab is the privileged
chrome://settings page is not blocked — the PING message is sent to the
Executor and the dispatch completes without an inaccessible-page error,
because handleExecuteAction performs no isAccessibleUrl check. -/
theorem privileged_url_dispatch_not_blocked :
    handleExecuteActionFlow (some 7) envC4 =
      ([Event.getTab, Event.ping, Event.forward],
       { success := true, error := none }) ∧
    Event.ping ∈ (handleExecuteActionFlow (some 7) envC4).1 ∧
    (handleExecuteActionFlow (some 7) envC4).2.success = true := by
  refine ⟨rfl, ?_, rfl⟩
  decide

/-- Claim C4 (amended): the inaccessible-page precondition is enforced on
the executeBrowserAction path, which fails with the inaccessible-page
error after resolving the tab and before sending any message; the
handleExecuteAction path wired to EXECUTE_ACTION performs no such
check. -/
theorem privileged_url_blocked_in_executeBrowserAction (env : FlowEnv)
    (t : TabInfo) (htab : env.tab = Except.ok t)
    (hurl : strFalsy t.url = true ∨ isAccessibleUrl (t.url.getD "") = false) :
    executeBrowserActionFlow env =
      ([Event.getTab],
       { success := false
       , error := some "Cannot execute actions on this type of page. Please try on a regular webpage." }) := by
  have hc : (strFalsy t.url || !isAccessibleUrl (t.url.getD "")) = true := by
    rcases hurl with h | h <;> simp [h]
  simp [executeBrowserActionFlow, htab, hc]

/-- Claim C4 (amended) witness: an extension page is blocked before any
message on the executeBrowserAction path. -/
theorem privileged_url_blocked_in_executeBrowserAction_witness :
    executeBrowserActionFlow envC4b =
      ([Event.getTab],
       { success := false
       , error := some "Cannot execute actions on this type of page. Please try on a regular webpage." }) :=
  privileged_url_blocked_in_executeBrowserAction envC4b
    { url := some "chrome-extension://abc/page.html" } rfl (Or.inr (by decide))

/-- Claim C5: for a successful scroll response with details satisfying the
executor invariant (scrolled iff actualChange is nonzero), the dispatcher
classifies the outcome with exactly the spec's precedence — up and
isAtTop, then down and isAtBottom, then actualChange = 0, then scrolled
by |actualChange| — and every branch reports success:true. -/
theorem scroll_outcome_classification (direction : Direction)
    (resp : ScrollResult) (d : ScrollDetails)
    (hs : resp.success = true) (hd : resp.details = some d)
    (hinv : d.scrolled = false ↔ d.actualChange = 0) :
    classifyScrollResponse direction resp = specScrollClassify direction d ∧
    (classifyScrollResponse direction resp).success = true := by
  have h1 : classifyScrollResponse direction resp =
      classifyScrollDetails direction d := by
    simp [classifyScrollResponse, hd, hs]
  have h2 : classifyScrollDetails direction d =
      specScrollClassify direction d := by
    unfold classifyScrollDetails specScrollClassify
    by_cases hA : direction = Direction.up ∧ d.isAtTop = true
    · simp [hA]
    · by_cases hB : direction = Direction.down ∧ d.isAtBottom = true
      · simp [hA, hB]
      · by_cases hC : d.actualChange = 0
        · simp [hA, hB, hC, hinv.mpr hC]
        · have hsc : ¬d.scrolled = false := fun hsc => hC (hinv.mp hsc)
          simp [hA, hB, hC, hsc]
  exact ⟨h1.trans h2, by rw [h1]; exact classifyScrollDetails_success direction d⟩

/-- Claim C5 witness: a 100 px downward scroll with room on both sides is
classified as the spec prescribes, with success:true. -/
theorem scroll_outcome_classification_witness :
    classifyScrollResponse Direction.down
      { success := true, details := some dC5 } =
      specScrollClassify Direction.down dC5 ∧
    (classifyScrollResponse Direction.down
      { success := true, details := some dC5 }).success = true :=
  scroll_outcome_classification Direction.down
    { success := true, details := some dC5 } dC5 rfl rfl (by decide)

/-- Claim C6 counterexample: handleGetPageState — the handler wired to
GET_PAGE_STATE and used for enrichment — consults no timestamp, so a
capture issued any time after a previous screenshot still returns a
non-null screenshot rather than screenshot:null. -/
theorem wired_capture_ignores_rate_limit :
    handleGetPageState capEnvCex =
      { success := true, screenshot := some "png2", html := some "<p>two</p>" } ∧
    (handleGetPageState capEnvCex).screenshot ≠ none := by
  refine ⟨rfl, ?_⟩
  decide

/-- Claim C6 (amended): the getPageState helper rate-limits: a capture
within one second of the last successful screenshot returns
screenshot:null while html is still produced, and html is non-null on
both calls; but the handler actually wired to GET_PAGE_STATE
(handleGetPageState) performs no rate limiting. -/
theorem getPageState_rate_limits_second_capture (st0 : Int)
    (env1 env2 : CaptureEnv) (t1 t2 : TabInfo) (s1 h1 h2 : String)
    (htab1 : env1.tab = Except.ok t1)
    (hurl1 : strFalsy t1.url = false ∧ isAccessibleUrl (t1.url.getD "") = true)
    (hfresh : ¬(env1.now - st0 < MIN_SCREENSHOT_INTERVAL))
    (hshot1 : env1.screenshotResult = Except.ok s1)
    (hhtml1 : env1.htmlResult = Except.ok h1)
    (htab2 : env2.tab = Except.ok t2)
    (hurl2 : strFalsy t2.url = false ∧ isAccessibleUrl (t2.url.getD "") = true)
    (hlim : env2.now - env1.now2 < MIN_SCREENSHOT_INTERVAL)
    (hhtml2 : env2.htmlResult = Except.ok h2) :
    (getPageState st0 env1).1 =
      { success := true, screenshot := some s1, html := some h1 } ∧
    (getPageState st0 env1).2 = env1.now2 ∧
    (getPageState (getPageState st0 env1).2 env2).1 =
      { success := true, screenshot := none, html := some h2 } := by
  have c1 : getPageState st0 env1 =
      ({ success := true, screenshot := some s1, html := some h1 }, env1.now2) := by
    simp [getPageState, htab1, hurl1.1, hurl1.2, hfresh, hshot1, hhtml1]
  refine ⟨by rw [c1], by rw [c1], ?_⟩
  rw [c1]
  simp [getPageState, htab2, hurl2.1, hurl2.2, hlim, hhtml2]

/-- Claim C6 (amended) witness: a capture at t=5000 takes a screenshot; a
second at t=5500 (450 ms after the screenshot) yields screenshot:null
with html still non-null. -/
theorem getPageState_rate_limits_second_capture_witness :
    (getPageState 0 capEnvA).1 =
      { success := true, screenshot := some "png1", html := some "<p>one</p>" } ∧
    (getPageState 0 capEnvA).2 = 5050 ∧
    (getPageState (getPageState 0 capEnvA).2 capEnvB).1 =
      { success := true, screenshot := none, html := some "<p>two</p>" } :=
  getPageState_rate_limits_second_capture 0 capEnvA capEnvB
    { url := some "https://site.example" } { url := some "https://site.example" }
    "png1" "<p>one</p>" "<p>two</p>" rfl ⟨by decide, by decide⟩ (by decide)
    rfl rfl rfl ⟨by decide, by decide⟩ (by decide) rfl

/-- Claim C7: the code evaluated at the failing input — a successful DOM
action whose subsequent capture fails ("boom").  The click and wait
branches return success:false carrying the raw capture error, not the
distinct composite message, because handleGetPageState never rejects and
the .catch handler holding the composite message is unreachable.  The
type branch is worse: lacking a trailing return, it settles with the raw
success:true response via the default resolve, reporting no failure at
all. -/
theorem click_capture_failure_raw_error :
    dispatchClickResult respC7 capEnvC7 =
      { success := false, error := some "boom", screenshot := none
      , html := none
      , details := some
          { base := { clicked := some true, selector := some "#btn" }
          , screenshot := none, html := none } } ∧
    (dispatchClickResult respC7 capEnvC7).error ≠
      some "Click succeeded but failed to get page state: boom" ∧
    dispatchTypeResult respC7 capEnvC7 = Resolved.raw respC7 ∧
    (dispatchWaitResult respC7 capEnvC7).error = some "boom" := by
  refine ⟨rfl, ?_, rfl, rfl⟩
  decide

/-- Claim C8: the code evaluated at the failing input — typing "hello"
into a resolved input with a successful capture.  The dispatch settles
with the raw executor response (which carries no html field at all),
because the type branch lacks a trailing return and the default
resolve(response) settles the promise first; the enrichment result, with
its non-null html snapshot and details.text, is only the second, ignored
resolution. -/
theorem type_dispatch_returns_raw_response :
    dispatchTypeResult (handleTypeAction dataC8 domC8).response capEnvC8 =
      Resolved.raw (handleTypeAction dataC8 domC8).response ∧
    (handleTypeAction dataC8 domC8).response =
      { success := true
      , details := some
          { element := some "input", selector := some "#in"
          , text := some "hello" } } ∧
    (typeBranchResolves (handleTypeAction dataC8 domC8).response capEnvC8).drop 1 =
      [Resolved.processed
        { success := true, screenshot := some "png"
        , html := some "<input value=hello>"
        , details := some
            { base := { element := some "input", selector := some "#in"
                      , text := some "hello" }
            , screenshot := some "png"
            , html := some "<input value=hello>" } }] :=
  ⟨rfl, rfl, rfl⟩

/-- Claim C9 counterexample: executeAction in src/content/actions.ts
rejects a type action whose text is the empty string with the
missing-field error, because its guard is a JS falsy check. -/
theorem executeAction_rejects_empty_text :
    executeAction { action := "type", selector := some "#q", text := some "" } =
      Except.error "Type action requires selector and text" := rfl

/-- Claim C9 (amended): the content-script executor handleTypeAction
accepts an empty-string text — it writes "" into the field (clearing it)
and reports success with details.text = "" — while the executeAction
helper in src/content/actions.ts rejects text = "" as a missing field. -/
theorem handleTypeAction_accepts_empty_text (dom : TypeDom) (tag sel : String)
    (hbs : dom.bySelector = DomElem.inputElem tag) :
    handleTypeAction { text := "", selector := some sel } dom =
      { response :=
          { success := true
          , details := some
              { element := some tag, selector := some sel, text := some "" } }
      , valueWritten := some "" } := by
  simp [handleTypeAction, hbs, typeSuccess]

/-- Claim C9 (amended) witness: clearing a textarea with text = ""
succeeds and writes the empty string. -/
theorem handleTypeAction_accepts_empty_text_witness :
    handleTypeAction { text := "", selector := some "#q" } domC9 =
      { response :=
          { success := true
          , details := some
              { element := some "textarea", selector := some "#q"
              , text := some "" } }
      , valueWritten := some "" } :=
  handleTypeAction_accepts_empty_text domC9 "textarea" "#q" rfl

/-- Claim C10: an EXECUTE_ACTION request whose tabId is absent or zero
returns success:false with "No tab ID provided" immediately, with no tab
resolution, probe, injection, or forward. -/
theorem falsy_tab_id_short_circuit (tabId : Option Nat) (env : FlowEnv)
    (h : tabId = none ∨ tabId = some 0) :
    handleExecuteActionFlow tabId env =
      ([], { success := false, error := some "No tab ID provided" }) := by
  unfold handleExecuteActionFlow
  rw [if_pos h]

/-- Claim C10 witness: tabId = 0 short-circuits with the no-tab-id error
and an empty event trace. -/
theorem falsy_tab_id_short_circuit_witness :
    handleExecuteActionFlow (some 0) envC10 =
      ([], { success := false, error := some "No tab ID provided" }) :=
  falsy_tab_id_short_circuit (some 0) envC10 (Or.inr rfl)

end Surfer
